import Mathlib

/-!
Verification of the authorization-tag classification and key-lifecycle logic of
`AndroidKeyMintDevice.cpp` (system/keymaster KeyMint adapter), shallowly embedded in Lean 4.

The central function is `convertKeyCharacteristics`, which partitions the crypto
engine's software-enforced tag list into enforcement domains, guided by the per-tag
classification table embodied in its `switch` statement.  `CHECK` failures (fatal
aborts) are modelled as `none` in an `Option` result.
-/

/-- The closed vocabulary of authorization-tag identifiers handled by the
classifier's `switch` statement in `convertKeyCharacteristics`. -/
inductive KmTag where
  | KM_TAG_ECIES_SINGLE_HASH_MODE
  | KM_TAG_INVALID
  | KM_TAG_KDF
  | KM_TAG_ROLLBACK_RESISTANCE
  | KM_TAG_ALLOW_WHILE_ON_BODY
  | KM_TAG_BOOTLOADER_ONLY
  | KM_TAG_ROLLBACK_RESISTANT
  | KM_TAG_STORAGE_KEY
  | KM_TAG_CREATION_DATETIME
  | KM_TAG_APPLICATION_DATA
  | KM_TAG_ATTESTATION_APPLICATION_ID
  | KM_TAG_ASSOCIATED_DATA
  | KM_TAG_ATTESTATION_CHALLENGE
  | KM_TAG_ATTESTATION_ID_BRAND
  | KM_TAG_ATTESTATION_ID_DEVICE
  | KM_TAG_ATTESTATION_ID_IMEI
  | KM_TAG_ATTESTATION_ID_SECOND_IMEI
  | KM_TAG_ATTESTATION_ID_MANUFACTURER
  | KM_TAG_ATTESTATION_ID_MEID
  | KM_TAG_ATTESTATION_ID_MODEL
  | KM_TAG_ATTESTATION_ID_PRODUCT
  | KM_TAG_ATTESTATION_ID_SERIAL
  | KM_TAG_AUTH_TOKEN
  | KM_TAG_CERTIFICATE_SERIAL
  | KM_TAG_CERTIFICATE_SUBJECT
  | KM_TAG_CERTIFICATE_NOT_AFTER
  | KM_TAG_CERTIFICATE_NOT_BEFORE
  | KM_TAG_CONFIRMATION_TOKEN
  | KM_TAG_DEVICE_UNIQUE_ATTESTATION
  | KM_TAG_IDENTITY_CREDENTIAL_KEY
  | KM_TAG_INCLUDE_UNIQUE_ID
  | KM_TAG_MAC_LENGTH
  | KM_TAG_NONCE
  | KM_TAG_RESET_SINCE_ID_ROTATION
  | KM_TAG_ROOT_OF_TRUST
  | KM_TAG_UNIQUE_ID
  | KM_TAG_ALGORITHM
  | KM_TAG_APPLICATION_ID
  | KM_TAG_AUTH_TIMEOUT
  | KM_TAG_BLOB_USAGE_REQUIREMENTS
  | KM_TAG_BLOCK_MODE
  | KM_TAG_BOOT_PATCHLEVEL
  | KM_TAG_CALLER_NONCE
  | KM_TAG_DIGEST
  | KM_TAG_EARLY_BOOT_ONLY
  | KM_TAG_EC_CURVE
  | KM_TAG_EXPORTABLE
  | KM_TAG_KEY_SIZE
  | KM_TAG_MAX_USES_PER_BOOT
  | KM_TAG_MIN_MAC_LENGTH
  | KM_TAG_MIN_SECONDS_BETWEEN_OPS
  | KM_TAG_NO_AUTH_REQUIRED
  | KM_TAG_ORIGIN
  | KM_TAG_OS_PATCHLEVEL
  | KM_TAG_OS_VERSION
  | KM_TAG_PADDING
  | KM_TAG_PURPOSE
  | KM_TAG_RSA_OAEP_MGF_DIGEST
  | KM_TAG_RSA_PUBLIC_EXPONENT
  | KM_TAG_TRUSTED_CONFIRMATION_REQUIRED
  | KM_TAG_TRUSTED_USER_PRESENCE_REQUIRED
  | KM_TAG_UNLOCKED_DEVICE_REQUIRED
  | KM_TAG_USER_AUTH_TYPE
  | KM_TAG_USER_SECURE_ID
  | KM_TAG_VENDOR_PATCHLEVEL
  | KM_TAG_ACTIVE_DATETIME
  | KM_TAG_ALL_APPLICATIONS
  | KM_TAG_ALL_USERS
  | KM_TAG_MAX_BOOT_LEVEL
  | KM_TAG_ORIGINATION_EXPIRE_DATETIME
  | KM_TAG_USAGE_EXPIRE_DATETIME
  | KM_TAG_USER_ID
  | KM_TAG_USAGE_COUNT_LIMIT
deriving DecidableEq, Fintype, Repr

/-- Policy bucket assigned to each tag by the classifier (the spec's
"Authorization Tag Registry"): one category per comment group of the `switch`
in `convertKeyCharacteristics`. -/
inductive TagClass where
  | Invalid
  | Unimplemented
  | ConditionalKeystore
  | Excluded
  | NotCharacteristic
  | HardwareEnforced
  | KeystoreEnforced
deriving DecidableEq, Repr

/-- The registry table: the grouping of `case` labels of the `switch` statement
(lines 73-177 of `AndroidKeyMintDevice.cpp`), one bucket per comment group. -/
def tagClass : KmTag → TagClass
  | .KM_TAG_ECIES_SINGLE_HASH_MODE | .KM_TAG_INVALID | .KM_TAG_KDF
  | .KM_TAG_ROLLBACK_RESISTANCE => .Invalid
  | .KM_TAG_ALLOW_WHILE_ON_BODY | .KM_TAG_BOOTLOADER_ONLY | .KM_TAG_ROLLBACK_RESISTANT
  | .KM_TAG_STORAGE_KEY => .Unimplemented
  | .KM_TAG_CREATION_DATETIME => .ConditionalKeystore
  | .KM_TAG_APPLICATION_DATA | .KM_TAG_ATTESTATION_APPLICATION_ID => .Excluded
  | .KM_TAG_ASSOCIATED_DATA | .KM_TAG_ATTESTATION_CHALLENGE | .KM_TAG_ATTESTATION_ID_BRAND
  | .KM_TAG_ATTESTATION_ID_DEVICE | .KM_TAG_ATTESTATION_ID_IMEI
  | .KM_TAG_ATTESTATION_ID_SECOND_IMEI | .KM_TAG_ATTESTATION_ID_MANUFACTURER
  | .KM_TAG_ATTESTATION_ID_MEID | .KM_TAG_ATTESTATION_ID_MODEL
  | .KM_TAG_ATTESTATION_ID_PRODUCT | .KM_TAG_ATTESTATION_ID_SERIAL | .KM_TAG_AUTH_TOKEN
  | .KM_TAG_CERTIFICATE_SERIAL | .KM_TAG_CERTIFICATE_SUBJECT | .KM_TAG_CERTIFICATE_NOT_AFTER
  | .KM_TAG_CERTIFICATE_NOT_BEFORE | .KM_TAG_CONFIRMATION_TOKEN
  | .KM_TAG_DEVICE_UNIQUE_ATTESTATION | .KM_TAG_IDENTITY_CREDENTIAL_KEY
  | .KM_TAG_INCLUDE_UNIQUE_ID | .KM_TAG_MAC_LENGTH | .KM_TAG_NONCE
  | .KM_TAG_RESET_SINCE_ID_ROTATION | .KM_TAG_ROOT_OF_TRUST
  | .KM_TAG_UNIQUE_ID => .NotCharacteristic
  | .KM_TAG_ALGORITHM | .KM_TAG_APPLICATION_ID | .KM_TAG_AUTH_TIMEOUT
  | .KM_TAG_BLOB_USAGE_REQUIREMENTS | .KM_TAG_BLOCK_MODE | .KM_TAG_BOOT_PATCHLEVEL
  | .KM_TAG_CALLER_NONCE | .KM_TAG_DIGEST | .KM_TAG_EARLY_BOOT_ONLY | .KM_TAG_EC_CURVE
  | .KM_TAG_EXPORTABLE | .KM_TAG_KEY_SIZE | .KM_TAG_MAX_USES_PER_BOOT
  | .KM_TAG_MIN_MAC_LENGTH | .KM_TAG_MIN_SECONDS_BETWEEN_OPS | .KM_TAG_NO_AUTH_REQUIRED
  | .KM_TAG_ORIGIN | .KM_TAG_OS_PATCHLEVEL | .KM_TAG_OS_VERSION | .KM_TAG_PADDING
  | .KM_TAG_PURPOSE | .KM_TAG_RSA_OAEP_MGF_DIGEST | .KM_TAG_RSA_PUBLIC_EXPONENT
  | .KM_TAG_TRUSTED_CONFIRMATION_REQUIRED | .KM_TAG_TRUSTED_USER_PRESENCE_REQUIRED
  | .KM_TAG_UNLOCKED_DEVICE_REQUIRED | .KM_TAG_USER_AUTH_TYPE | .KM_TAG_USER_SECURE_ID
  | .KM_TAG_VENDOR_PATCHLEVEL => .HardwareEnforced
  | .KM_TAG_ACTIVE_DATETIME | .KM_TAG_ALL_APPLICATIONS | .KM_TAG_ALL_USERS
  | .KM_TAG_MAX_BOOT_LEVEL | .KM_TAG_ORIGINATION_EXPIRE_DATETIME
  | .KM_TAG_USAGE_EXPIRE_DATETIME | .KM_TAG_USER_ID
  | .KM_TAG_USAGE_COUNT_LIMIT => .KeystoreEnforced

/-- Typed tag values: integer, boolean, byte-blob or date (classification never
inspects the value). -/
inductive KmValue where
  | intVal (n : Nat)
  | boolVal (b : Bool)
  | bytesVal (bs : List Nat)
  | dateVal (n : Nat)
deriving DecidableEq, Repr

/-- A keymaster parameter: a tag identifier with its typed value
(`keymaster_key_param_t`).  `kmParam2Aidl` is the identity on this model. -/
structure KmParam where
  tag : KmTag
  value : KmValue
deriving DecidableEq, Repr

/-- The AIDL `SecurityLevel` enumeration. -/
inductive SecurityLevel where
  | SOFTWARE
  | TRUSTED_ENVIRONMENT
  | STRONGBOX
  | KEYSTORE
deriving DecidableEq, Repr

/-- One characteristics entry: an enforcement domain paired with its
authorization list (AIDL `KeyCharacteristics`). -/
structure KeyCharacteristics where
  securityLevel : SecurityLevel
  authorizations : List KmParam
deriving DecidableEq, Repr

/-- Keymaster error codes used by this adapter (other engine errors are carried
by `OTHER`). -/
inductive KmError where
  | OK
  | TOO_MANY_OPERATIONS
  | UNIMPLEMENTED
  | UNKNOWN_ERROR
  | OTHER (code : Nat)
deriving DecidableEq, Repr

/-- The per-entry dispatch loop of `convertKeyCharacteristics` (lines 73-178):
walks the software-enforced list, routing each entry to the KeyMint list
(first component) or the keystore list (second component), dropping the rest.
A `CHECK(false)` on an `Invalid`-class tag is modelled as `none`. -/
def classifyLoop (requestParams : List KmParam) : List KmParam → Option (List KmParam × List KmParam)
  | [] => some ([], [])
  | entry :: rest =>
    match tagClass entry.tag with
    | TagClass.Invalid => none
    | TagClass.Unimplemented => classifyLoop requestParams rest
    | TagClass.ConditionalKeystore =>
      if requestParams.any (fun p => decide (p.tag = KmTag.KM_TAG_CREATION_DATETIME)) then
        (classifyLoop requestParams rest).map (fun r => (r.1, entry :: r.2))
      else
        classifyLoop requestParams rest
    | TagClass.Excluded => classifyLoop requestParams rest
    | TagClass.NotCharacteristic => classifyLoop requestParams rest
    | TagClass.HardwareEnforced => (classifyLoop requestParams rest).map (fun r => (entry :: r.1, r.2))
    | TagClass.KeystoreEnforced => (classifyLoop requestParams rest).map (fun r => (r.1, entry :: r.2))

/-- `convertKeyCharacteristics` (lines 46-188).  For a non-SOFTWARE level the
hardware-enforced list passes through verbatim and, when requested and
non-empty, the software-enforced list becomes the KEYSTORE entry.  For the
SOFTWARE level the hardware-enforced list must be empty (`CHECK`, modelled as
`none`) and the software-enforced list is partitioned by `classifyLoop`;
empty entries are not pushed onto the result. -/
def convertKeyCharacteristics (keyMintSecurityLevel : SecurityLevel)
    (requestParams sw_enforced hw_enforced : List KmParam)
    (include_keystore_enforced : Bool) : Option (List KeyCharacteristics) :=
  if keyMintSecurityLevel ≠ SecurityLevel.SOFTWARE then
    some (if include_keystore_enforced && !sw_enforced.isEmpty then
      [⟨keyMintSecurityLevel, hw_enforced⟩, ⟨SecurityLevel.KEYSTORE, sw_enforced⟩]
    else
      [⟨keyMintSecurityLevel, hw_enforced⟩])
  else if !hw_enforced.isEmpty then
    none
  else
    (classifyLoop requestParams sw_enforced).map (fun r =>
      (if !r.1.isEmpty then [(⟨SecurityLevel.SOFTWARE, r.1⟩ : KeyCharacteristics)] else []) ++
      (if include_keystore_enforced && !r.2.isEmpty then
        [(⟨SecurityLevel.KEYSTORE, r.2⟩ : KeyCharacteristics)] else []))

/-- Authorization list of the output entry for a given enforcement domain
(`[]` when the domain is absent from the output). -/
def entryAuths (out : List KeyCharacteristics) (lvl : SecurityLevel) : List KmParam :=
  match out.find? (fun kc => decide (kc.securityLevel = lvl)) with
  | some kc => kc.authorizations
  | none => []

/-! ### Registry lemmas -/

theorem tagClass_conditional_eq (t : KmTag) (h : tagClass t = TagClass.ConditionalKeystore) :
    t = KmTag.KM_TAG_CREATION_DATETIME := by
  revert h
  revert t
  decide

theorem tagClass_creation :
    tagClass KmTag.KM_TAG_CREATION_DATETIME = TagClass.ConditionalKeystore := rfl

/-! ### Soundness of the software-level dispatch loop -/

theorem classifyLoop_sound (req : List KmParam) (sw : List KmParam) :
    ∀ (hwL ksL : List KmParam), classifyLoop req sw = some (hwL, ksL) →
    (∀ e ∈ hwL, e ∈ sw ∧ tagClass e.tag = TagClass.HardwareEnforced) ∧
    (∀ e ∈ ksL, e ∈ sw ∧ (tagClass e.tag = TagClass.KeystoreEnforced ∨
      (tagClass e.tag = TagClass.ConditionalKeystore ∧
        req.any (fun p => decide (p.tag = e.tag)) = true))) := by
  induction sw with
  | nil =>
    intro hwL ksL h
    simp only [classifyLoop, Option.some.injEq, Prod.mk.injEq] at h
    obtain ⟨h1, h2⟩ := h
    subst h1
    subst h2
    simp
  | cons entry rest ih =>
    intro hwL ksL h
    simp only [classifyLoop] at h
    rcases hcls : tagClass entry.tag with _ | _ | _ | _ | _ | _ | _ <;> rw [hcls] at h
    · exact absurd h (by simp)
    · obtain ⟨ih1, ih2⟩ := ih hwL ksL h
      refine ⟨fun e he => ⟨List.mem_cons_of_mem _ (ih1 e he).1, (ih1 e he).2⟩,
        fun e he => ⟨List.mem_cons_of_mem _ (ih2 e he).1, (ih2 e he).2⟩⟩
    · by_cases hcond : req.any (fun p => decide (p.tag = KmTag.KM_TAG_CREATION_DATETIME)) = true
      · rw [if_pos hcond] at h
        rcases hrec : classifyLoop req rest with _ | r
        · rw [hrec] at h
          exact absurd h (by simp)
        · rw [hrec] at h
          simp only [Option.map_some', Option.some.injEq, Prod.mk.injEq] at h
          obtain ⟨h1, h2⟩ := h
          subst h1
          subst h2
          obtain ⟨ih1, ih2⟩ := ih r.1 r.2 (by rw [hrec])
          refine ⟨fun e he => ⟨List.mem_cons_of_mem _ (ih1 e he).1, (ih1 e he).2⟩, ?_⟩
          intro e he
          rcases List.mem_cons.mp he with heq | he'
          · subst heq
            refine ⟨List.mem_cons_self _ _, Or.inr ⟨hcls, ?_⟩⟩
            rw [tagClass_conditional_eq _ hcls]
            exact hcond
          · exact ⟨List.mem_cons_of_mem _ (ih2 e he').1, (ih2 e he').2⟩
      · rw [if_neg hcond] at h
        obtain ⟨ih1, ih2⟩ := ih hwL ksL h
        refine ⟨fun e he => ⟨List.mem_cons_of_mem _ (ih1 e he).1, (ih1 e he).2⟩,
          fun e he => ⟨List.mem_cons_of_mem _ (ih2 e he).1, (ih2 e he).2⟩⟩
    · obtain ⟨ih1, ih2⟩ := ih hwL ksL h
      refine ⟨fun e he => ⟨List.mem_cons_of_mem _ (ih1 e he).1, (ih1 e he).2⟩,
        fun e he => ⟨List.mem_cons_of_mem _ (ih2 e he).1, (ih2 e he).2⟩⟩
    · obtain ⟨ih1, ih2⟩ := ih hwL ksL h
      refine ⟨fun e he => ⟨List.mem_cons_of_mem _ (ih1 e he).1, (ih1 e he).2⟩,
        fun e he => ⟨List.mem_cons_of_mem _ (ih2 e he).1, (ih2 e he).2⟩⟩
    · rcases hrec : classifyLoop req rest with _ | r
      · rw [hrec] at h
        exact absurd h (by simp)
      · rw [hrec] at h
        simp only [Option.map_some', Option.some.injEq, Prod.mk.injEq] at h
        obtain ⟨h1, h2⟩ := h
        subst h1
        subst h2
        obtain ⟨ih1, ih2⟩ := ih r.1 r.2 (by rw [hrec])
        refine ⟨?_, fun e he => ⟨List.mem_cons_of_mem _ (ih2 e he).1, (ih2 e he).2⟩⟩
        intro e he
        rcases List.mem_cons.mp he with heq | he'
        · subst heq
          exact ⟨List.mem_cons_self _ _, hcls⟩
        · exact ⟨List.mem_cons_of_mem _ (ih1 e he').1, (ih1 e he').2⟩
    · rcases hrec : classifyLoop req rest with _ | r
      · rw [hrec] at h
        exact absurd h (by simp)
      · rw [hrec] at h
        simp only [Option.map_some', Option.some.injEq, Prod.mk.injEq] at h
        obtain ⟨h1, h2⟩ := h
        subst h1
        subst h2
        obtain ⟨ih1, ih2⟩ := ih r.1 r.2 (by rw [hrec])
        refine ⟨fun e he => ⟨List.mem_cons_of_mem _ (ih1 e he).1, (ih1 e he).2⟩, ?_⟩
        intro e he
        rcases List.mem_cons.mp he with heq | he'
        · subst heq
          exact ⟨List.mem_cons_self _ _, Or.inl hcls⟩
        · exact ⟨List.mem_cons_of_mem _ (ih2 e he').1, (ih2 e he').2⟩

/-! ### Shape of the classifier output at SOFTWARE level -/

theorem convert_software_shape (req sw hw : List KmParam) (inc : Bool)
    (out : List KeyCharacteristics)
    (h : convertKeyCharacteristics SecurityLevel.SOFTWARE req sw hw inc = some out) :
    hw = [] ∧ ∃ hwL ksL, classifyLoop req sw = some (hwL, ksL) ∧
      out = (if !hwL.isEmpty then [(⟨SecurityLevel.SOFTWARE, hwL⟩ : KeyCharacteristics)] else []) ++
        (if inc && !ksL.isEmpty then [(⟨SecurityLevel.KEYSTORE, ksL⟩ : KeyCharacteristics)] else []) := by
  rw [convertKeyCharacteristics, if_neg (by simp)] at h
  by_cases hhw : hw = []
  · subst hhw
    rw [if_neg (by simp)] at h
    refine ⟨rfl, ?_⟩
    rcases hrec : classifyLoop req sw with _ | r
    · rw [hrec] at h
      exact absurd h (by simp)
    · rw [hrec] at h
      simp only [Option.map_some', Option.some.injEq] at h
      exact ⟨r.1, r.2, rfl, h.symm⟩
  · rw [if_pos (by simp [hhw])] at h
    exact absurd h (by simp)

theorem entryAuths_nil (lvl : SecurityLevel) : entryAuths [] lvl = [] := rfl

theorem entryAuths_software_shape (hwL ksL : List KmParam) (inc : Bool) :
    entryAuths ((if !hwL.isEmpty then [(⟨SecurityLevel.SOFTWARE, hwL⟩ : KeyCharacteristics)] else []) ++
        (if inc && !ksL.isEmpty then [(⟨SecurityLevel.KEYSTORE, ksL⟩ : KeyCharacteristics)] else []))
      SecurityLevel.SOFTWARE = hwL ∧
    entryAuths ((if !hwL.isEmpty then [(⟨SecurityLevel.SOFTWARE, hwL⟩ : KeyCharacteristics)] else []) ++
        (if inc && !ksL.isEmpty then [(⟨SecurityLevel.KEYSTORE, ksL⟩ : KeyCharacteristics)] else []))
      SecurityLevel.KEYSTORE = (if inc then ksL else []) := by
  cases hwL <;> cases ksL <;> cases inc <;>
    simp [entryAuths, List.find?]

/-- C1: at security level SOFTWARE, every tag in the output HARDWARE-domain
(software-as-hardware) entry comes from the software-enforced set and is
classified `HardwareEnforced`; every tag in the output KEYSTORE-domain entry
comes from the software-enforced set and is classified `KeystoreEnforced`, or
`ConditionalKeystore` with its identifier present in the requested set; no tag
identifier appears in both entries; and no tag classified `Excluded`,
`NotCharacteristic` or `Unimplemented` appears in any output entry. -/
theorem convert_software_classification_sound
    (R S hw : List KmParam) (inc : Bool) (out : List KeyCharacteristics)
    (h : convertKeyCharacteristics SecurityLevel.SOFTWARE R S hw inc = some out) :
    (∀ e ∈ entryAuths out SecurityLevel.SOFTWARE,
      e ∈ S ∧ tagClass e.tag = TagClass.HardwareEnforced) ∧
    (∀ e ∈ entryAuths out SecurityLevel.KEYSTORE,
      e ∈ S ∧ (tagClass e.tag = TagClass.KeystoreEnforced ∨
        (tagClass e.tag = TagClass.ConditionalKeystore ∧
          R.any (fun p => decide (p.tag = e.tag)) = true))) ∧
    (∀ t : KmTag,
      ¬((∃ e ∈ entryAuths out SecurityLevel.SOFTWARE, e.tag = t) ∧
        (∃ e ∈ entryAuths out SecurityLevel.KEYSTORE, e.tag = t))) ∧
    (∀ e : KmParam,
      (e ∈ entryAuths out SecurityLevel.SOFTWARE ∨ e ∈ entryAuths out SecurityLevel.KEYSTORE) →
      tagClass e.tag ≠ TagClass.Excluded ∧ tagClass e.tag ≠ TagClass.NotCharacteristic ∧
        tagClass e.tag ≠ TagClass.Unimplemented) := by
  obtain ⟨hhw, hwL, ksL, hloop, hout⟩ := convert_software_shape R S hw inc out h
  obtain ⟨hsw, hks⟩ := entryAuths_software_shape hwL ksL inc
  rw [hout, hsw, hks]
  obtain ⟨hsound1, hsound2⟩ := classifyLoop_sound R S hwL ksL hloop
  have hksIf : ∀ e ∈ (if inc then ksL else []), e ∈ S ∧
      (tagClass e.tag = TagClass.KeystoreEnforced ∨
        (tagClass e.tag = TagClass.ConditionalKeystore ∧
          R.any (fun p => decide (p.tag = e.tag)) = true)) := by
    cases inc
    · simp
    · simpa using hsound2
  refine ⟨hsound1, hksIf, ?_, ?_⟩
  · rintro t ⟨⟨e1, he1, ht1⟩, ⟨e2, he2, ht2⟩⟩
    have hc1 := (hsound1 e1 he1).2
    have hc2 := (hksIf e2 he2).2
    rw [ht1] at hc1
    rw [ht2] at hc2
    rcases hc2 with hc2 | ⟨hc2, _⟩ <;> rw [hc1] at hc2 <;> exact TagClass.noConfusion hc2
  · rintro e (he | he)
    · rw [(hsound1 e he).2]
      exact ⟨TagClass.noConfusion, TagClass.noConfusion, TagClass.noConfusion⟩
    · rcases (hksIf e he).2 with hc | ⟨hc, _⟩ <;> rw [hc] <;>
        exact ⟨TagClass.noConfusion, TagClass.noConfusion, TagClass.noConfusion⟩

theorem convert_software_classification_sound_witness :
    (∀ e ∈ entryAuths [(⟨SecurityLevel.SOFTWARE,
          [(⟨KmTag.KM_TAG_ALGORITHM, KmValue.intVal 1⟩ : KmParam)]⟩ : KeyCharacteristics),
        (⟨SecurityLevel.KEYSTORE,
          [(⟨KmTag.KM_TAG_USER_ID, KmValue.intVal 2⟩ : KmParam)]⟩ : KeyCharacteristics)]
        SecurityLevel.SOFTWARE,
      e ∈ [(⟨KmTag.KM_TAG_ALGORITHM, KmValue.intVal 1⟩ : KmParam),
        (⟨KmTag.KM_TAG_USER_ID, KmValue.intVal 2⟩ : KmParam)] ∧
        tagClass e.tag = TagClass.HardwareEnforced) ∧
    (∀ e ∈ entryAuths [(⟨SecurityLevel.SOFTWARE,
          [(⟨KmTag.KM_TAG_ALGORITHM, KmValue.intVal 1⟩ : KmParam)]⟩ : KeyCharacteristics),
        (⟨SecurityLevel.KEYSTORE,
          [(⟨KmTag.KM_TAG_USER_ID, KmValue.intVal 2⟩ : KmParam)]⟩ : KeyCharacteristics)]
        SecurityLevel.KEYSTORE,
      e ∈ [(⟨KmTag.KM_TAG_ALGORITHM, KmValue.intVal 1⟩ : KmParam),
        (⟨KmTag.KM_TAG_USER_ID, KmValue.intVal 2⟩ : KmParam)] ∧
        (tagClass e.tag = TagClass.KeystoreEnforced ∨
          (tagClass e.tag = TagClass.ConditionalKeystore ∧
            List.any ([] : List KmParam) (fun p => decide (p.tag = e.tag)) = true))) ∧
    (∀ t : KmTag,
      ¬((∃ e ∈ entryAuths [(⟨SecurityLevel.SOFTWARE,
            [(⟨KmTag.KM_TAG_ALGORITHM, KmValue.intVal 1⟩ : KmParam)]⟩ : KeyCharacteristics),
          (⟨SecurityLevel.KEYSTORE,
            [(⟨KmTag.KM_TAG_USER_ID, KmValue.intVal 2⟩ : KmParam)]⟩ : KeyCharacteristics)]
          SecurityLevel.SOFTWARE, e.tag = t) ∧
        (∃ e ∈ entryAuths [(⟨SecurityLevel.SOFTWARE,
            [(⟨KmTag.KM_TAG_ALGORITHM, KmValue.intVal 1⟩ : KmParam)]⟩ : KeyCharacteristics),
          (⟨SecurityLevel.KEYSTORE,
            [(⟨KmTag.KM_TAG_USER_ID, KmValue.intVal 2⟩ : KmParam)]⟩ : KeyCharacteristics)]
          SecurityLevel.KEYSTORE, e.tag = t))) ∧
    (∀ e : KmParam,
      (e ∈ entryAuths [(⟨SecurityLevel.SOFTWARE,
          [(⟨KmTag.KM_TAG_ALGORITHM, KmValue.intVal 1⟩ : KmParam)]⟩ : KeyCharacteristics),
        (⟨SecurityLevel.KEYSTORE,
          [(⟨KmTag.KM_TAG_USER_ID, KmValue.intVal 2⟩ : KmParam)]⟩ : KeyCharacteristics)]
        SecurityLevel.SOFTWARE ∨
        e ∈ entryAuths [(⟨SecurityLevel.SOFTWARE,
          [(⟨KmTag.KM_TAG_ALGORITHM, KmValue.intVal 1⟩ : KmParam)]⟩ : KeyCharacteristics),
        (⟨SecurityLevel.KEYSTORE,
          [(⟨KmTag.KM_TAG_USER_ID, KmValue.intVal 2⟩ : KmParam)]⟩ : KeyCharacteristics)]
        SecurityLevel.KEYSTORE) →
      tagClass e.tag ≠ TagClass.Excluded ∧ tagClass e.tag ≠ TagClass.NotCharacteristic ∧
        tagClass e.tag ≠ TagClass.Unimplemented) :=
  convert_software_classification_sound []
    [(⟨KmTag.KM_TAG_ALGORITHM, KmValue.intVal 1⟩ : KmParam),
      (⟨KmTag.KM_TAG_USER_ID, KmValue.intVal 2⟩ : KmParam)] [] true
    [(⟨SecurityLevel.SOFTWARE,
        [(⟨KmTag.KM_TAG_ALGORITHM, KmValue.intVal 1⟩ : KmParam)]⟩ : KeyCharacteristics),
      (⟨SecurityLevel.KEYSTORE,
        [(⟨KmTag.KM_TAG_USER_ID, KmValue.intVal 2⟩ : KmParam)]⟩ : KeyCharacteristics)]
    (by rfl)

/-- C2: for every security level other than SOFTWARE the output places the
input hardware-enforced list verbatim in the first (HARDWARE-domain) entry,
and appends a KEYSTORE entry holding the software-enforced list verbatim
exactly when `include_keystore_enforced` is true and that list is non-empty;
no per-tag table lookup is involved. -/
theorem convert_nonsoftware_passthrough
    (lvl : SecurityLevel) (hlvl : lvl ≠ SecurityLevel.SOFTWARE)
    (req sw hw : List KmParam) (inc : Bool) :
    convertKeyCharacteristics lvl req sw hw inc =
      some ((⟨lvl, hw⟩ : KeyCharacteristics) ::
        (if inc && !sw.isEmpty then [(⟨SecurityLevel.KEYSTORE, sw⟩ : KeyCharacteristics)] else [])) := by
  rw [convertKeyCharacteristics, if_pos hlvl]
  cases hc : (inc && !sw.isEmpty) <;> simp [hc]

theorem convert_nonsoftware_passthrough_witness :
    convertKeyCharacteristics SecurityLevel.STRONGBOX []
      [(⟨KmTag.KM_TAG_NONCE, KmValue.intVal 3⟩ : KmParam)]
      [(⟨KmTag.KM_TAG_ALGORITHM, KmValue.intVal 1⟩ : KmParam)] true =
      some ((⟨SecurityLevel.STRONGBOX,
          [(⟨KmTag.KM_TAG_ALGORITHM, KmValue.intVal 1⟩ : KmParam)]⟩ : KeyCharacteristics) ::
        (if true && !([(⟨KmTag.KM_TAG_NONCE, KmValue.intVal 3⟩ : KmParam)] : List KmParam).isEmpty then
          [(⟨SecurityLevel.KEYSTORE,
            [(⟨KmTag.KM_TAG_NONCE, KmValue.intVal 3⟩ : KmParam)]⟩ : KeyCharacteristics)]
        else [])) :=
  convert_nonsoftware_passthrough SecurityLevel.STRONGBOX (by decide) []
    [(⟨KmTag.KM_TAG_NONCE, KmValue.intVal 3⟩ : KmParam)]
    [(⟨KmTag.KM_TAG_ALGORITHM, KmValue.intVal 1⟩ : KmParam)] true

/-- C3 counterexample: the claim states that invoking the classifier at a
security level other than SOFTWARE with a non-empty engine-reported
hardware-enforced set is a fatal internal-consistency fault; in fact such a
call succeeds and passes the non-empty set through verbatim (the emptiness
`CHECK` sits in the SOFTWARE branch only). -/
theorem convert_nonsoftware_nonempty_hw_accepted :
    convertKeyCharacteristics SecurityLevel.TRUSTED_ENVIRONMENT [] []
      [(⟨KmTag.KM_TAG_ALGORITHM, KmValue.intVal 1⟩ : KmParam)] true =
      some [(⟨SecurityLevel.TRUSTED_ENVIRONMENT,
        [(⟨KmTag.KM_TAG_ALGORITHM, KmValue.intVal 1⟩ : KmParam)]⟩ : KeyCharacteristics)] := by
  rfl

/-- C3 (amended): when the classifier runs at security level SOFTWARE, the
engine-reported hardware-enforced set is expected to be empty, and a violation
is a fatal internal-consistency fault (a `CHECK` failure, modelled as `none`),
not a recoverable error. -/
theorem convert_software_nonempty_hw_fatal
    (req sw hw : List KmParam) (inc : Bool) (hhw : hw ≠ []) :
    convertKeyCharacteristics SecurityLevel.SOFTWARE req sw hw inc = none := by
  rw [convertKeyCharacteristics, if_neg (by simp), if_pos (by simp [hhw])]

theorem convert_software_nonempty_hw_fatal_witness :
    convertKeyCharacteristics SecurityLevel.SOFTWARE [] []
      [(⟨KmTag.KM_TAG_ALGORITHM, KmValue.intVal 1⟩ : KmParam)] true = none :=
  convert_software_nonempty_hw_fatal [] []
    [(⟨KmTag.KM_TAG_ALGORITHM, KmValue.intVal 1⟩ : KmParam)] true (by decide)

theorem classifyLoop_creation_mem (req : List KmParam) (sw : List KmParam) :
    ∀ (hwL ksL : List KmParam), classifyLoop req sw = some (hwL, ksL) →
    req.any (fun p => decide (p.tag = KmTag.KM_TAG_CREATION_DATETIME)) = true →
    ∀ e ∈ sw, e.tag = KmTag.KM_TAG_CREATION_DATETIME → e ∈ ksL := by
  induction sw with
  | nil => intro hwL ksL _ _ e he; exact absurd he (by simp)
  | cons entry rest ih =>
    intro hwL ksL h hcond e he htag
    simp only [classifyLoop] at h
    have hecls : tagClass e.tag = TagClass.ConditionalKeystore := by
      rw [htag]; rfl
    rcases List.mem_cons.mp he with heq | he'
    · subst heq
      rw [hecls, if_pos hcond] at h
      rcases hrec : classifyLoop req rest with _ | r
      · rw [hrec] at h
        exact absurd h (by simp)
      · rw [hrec] at h
        simp only [Option.map_some', Option.some.injEq, Prod.mk.injEq] at h
        rw [← h.2]
        exact List.mem_cons_self _ _
    · rcases hcls : tagClass entry.tag with _ | _ | _ | _ | _ | _ | _ <;> rw [hcls] at h
      · exact absurd h (by simp)
      · exact ih hwL ksL h hcond e he' htag
      · rw [if_pos hcond] at h
        rcases hrec : classifyLoop req rest with _ | r
        · rw [hrec] at h
          exact absurd h (by simp)
        · rw [hrec] at h
          simp only [Option.map_some', Option.some.injEq, Prod.mk.injEq] at h
          rw [← h.2]
          exact List.mem_cons_of_mem _ (ih r.1 r.2 (by rw [hrec]) hcond e he' htag)
      · exact ih hwL ksL h hcond e he' htag
      · exact ih hwL ksL h hcond e he' htag
      · rcases hrec : classifyLoop req rest with _ | r
        · rw [hrec] at h
          exact absurd h (by simp)
        · rw [hrec] at h
          simp only [Option.map_some', Option.some.injEq, Prod.mk.injEq] at h
          rw [← h.2]
          exact ih r.1 r.2 (by rw [hrec]) hcond e he' htag
      · rcases hrec : classifyLoop req rest with _ | r
        · rw [hrec] at h
          exact absurd h (by simp)
        · rw [hrec] at h
          simp only [Option.map_some', Option.some.injEq, Prod.mk.injEq] at h
          rw [← h.2]
          exact List.mem_cons_of_mem _ (ih r.1 r.2 (by rw [hrec]) hcond e he' htag)

/-- C4: at security level SOFTWARE, a software-enforced `CREATION_DATETIME`
parameter lands in the KEYSTORE-domain output entry exactly when the requested
parameter set also carries a `CREATION_DATETIME` tag; otherwise it is dropped
from every output entry (it never reaches the software-as-hardware entry). -/
theorem convert_creation_datetime_conditional
    (R S hw : List KmParam) (out : List KeyCharacteristics) (e : KmParam)
    (h : convertKeyCharacteristics SecurityLevel.SOFTWARE R S hw true = some out)
    (heS : e ∈ S) (htag : e.tag = KmTag.KM_TAG_CREATION_DATETIME) :
    (e ∈ entryAuths out SecurityLevel.KEYSTORE ↔
      R.any (fun p => decide (p.tag = KmTag.KM_TAG_CREATION_DATETIME)) = true) ∧
    e ∉ entryAuths out SecurityLevel.SOFTWARE := by
  obtain ⟨hhw, hwL, ksL, hloop, hout⟩ := convert_software_shape R S hw true out h
  obtain ⟨hswE, hksE⟩ := entryAuths_software_shape hwL ksL true
  rw [hout, hswE, hksE]
  simp only [if_pos rfl]
  obtain ⟨hsound1, hsound2⟩ := classifyLoop_sound R S hwL ksL hloop
  have hecls : tagClass e.tag = TagClass.ConditionalKeystore := by
    rw [htag]; rfl
  refine ⟨⟨?_, ?_⟩, ?_⟩
  · intro hks
    rcases (hsound2 e hks).2 with hc | ⟨_, hany⟩
    · rw [hecls] at hc
      exact absurd hc (by decide)
    · rw [htag] at hany
      exact hany
  · intro hany
    exact classifyLoop_creation_mem R S hwL ksL hloop hany e heS htag
  · intro hhwmem
    have := (hsound1 e hhwmem).2
    rw [hecls] at this
    exact absurd this (by decide)

theorem convert_creation_datetime_conditional_witness :
    ((⟨KmTag.KM_TAG_CREATION_DATETIME, KmValue.dateVal 5⟩ : KmParam) ∈
        entryAuths [(⟨SecurityLevel.KEYSTORE,
          [(⟨KmTag.KM_TAG_CREATION_DATETIME, KmValue.dateVal 5⟩ : KmParam)]⟩ : KeyCharacteristics)]
          SecurityLevel.KEYSTORE ↔
      List.any [(⟨KmTag.KM_TAG_CREATION_DATETIME, KmValue.dateVal 5⟩ : KmParam)]
        (fun p => decide (p.tag = KmTag.KM_TAG_CREATION_DATETIME)) = true) ∧
    (⟨KmTag.KM_TAG_CREATION_DATETIME, KmValue.dateVal 5⟩ : KmParam) ∉
      entryAuths [(⟨SecurityLevel.KEYSTORE,
        [(⟨KmTag.KM_TAG_CREATION_DATETIME, KmValue.dateVal 5⟩ : KmParam)]⟩ : KeyCharacteristics)]
        SecurityLevel.SOFTWARE :=
  convert_creation_datetime_conditional
    [(⟨KmTag.KM_TAG_CREATION_DATETIME, KmValue.dateVal 5⟩ : KmParam)]
    [(⟨KmTag.KM_TAG_CREATION_DATETIME, KmValue.dateVal 5⟩ : KmParam)] []
    [(⟨SecurityLevel.KEYSTORE,
      [(⟨KmTag.KM_TAG_CREATION_DATETIME, KmValue.dateVal 5⟩ : KmParam)]⟩ : KeyCharacteristics)]
    (⟨KmTag.KM_TAG_CREATION_DATETIME, KmValue.dateVal 5⟩ : KmParam)
    (by rfl) (by simp) (by rfl)

/-- C5 counterexample: the claim states that an output entry with an empty tag
set is omitted at every security level; but at a non-SOFTWARE level with an
empty engine hardware-enforced list the classifier still emits the
HARDWARE-domain entry with an empty authorization list. -/
theorem convert_nonsoftware_empty_hw_entry_emitted :
    convertKeyCharacteristics SecurityLevel.TRUSTED_ENVIRONMENT [] [] [] true =
      some [(⟨SecurityLevel.TRUSTED_ENVIRONMENT, []⟩ : KeyCharacteristics)] := by
  rfl

/-- C5 (amended): every classifier output decomposes as an optional
HARDWARE-domain entry followed by an optional KEYSTORE-domain entry, at most
one entry per domain; the KEYSTORE entry appears only when requested and
non-empty; at security level SOFTWARE an empty HARDWARE-domain entry is
omitted, while at every other level the HARDWARE entry is always emitted
(even with an empty tag set) and carries the input hardware-enforced list. -/
theorem convert_output_structure
    (lvl : SecurityLevel) (req sw hw : List KmParam) (inc : Bool)
    (out : List KeyCharacteristics)
    (h : convertKeyCharacteristics lvl req sw hw inc = some out) :
    ∃ hwPart ksPart : List KeyCharacteristics,
      out = hwPart ++ ksPart ∧
      hwPart.length ≤ 1 ∧ ksPart.length ≤ 1 ∧
      (∀ kc ∈ hwPart, kc.securityLevel = lvl) ∧
      (∀ kc ∈ ksPart, kc.securityLevel = SecurityLevel.KEYSTORE ∧
        kc.authorizations ≠ [] ∧ inc = true) ∧
      (lvl = SecurityLevel.SOFTWARE → ∀ kc ∈ hwPart, kc.authorizations ≠ []) ∧
      (lvl ≠ SecurityLevel.SOFTWARE → hwPart = [(⟨lvl, hw⟩ : KeyCharacteristics)]) := by
  by_cases hlvl : lvl = SecurityLevel.SOFTWARE
  · subst hlvl
    obtain ⟨hhw, hwL, ksL, hloop, hout⟩ := convert_software_shape req sw hw inc out h
    refine ⟨(if !hwL.isEmpty then [(⟨SecurityLevel.SOFTWARE, hwL⟩ : KeyCharacteristics)] else []),
      (if inc && !ksL.isEmpty then [(⟨SecurityLevel.KEYSTORE, ksL⟩ : KeyCharacteristics)] else []),
      hout, ?_, ?_, ?_, ?_, ?_, ?_⟩
    · split <;> simp
    · split <;> simp
    · split <;> simp
    · rcases hc : (inc && !ksL.isEmpty) with _ | _
      · simp
      · simp only [if_pos hc]
        simp only [Bool.and_eq_true, Bool.not_eq_true'] at hc
        intro kc hkc
        rw [List.mem_singleton.mp hkc]
        exact ⟨rfl, by simpa using hc.2, hc.1⟩
    · intro _
      rcases hc : (!hwL.isEmpty) with _ | _
      · simp
      · simp only [if_pos hc]
        simp only [Bool.not_eq_true'] at hc
        intro kc hkc
        rw [List.mem_singleton.mp hkc]
        simpa using hc
    · intro hne
      exact absurd rfl hne
  · rw [convert_nonsoftware_passthrough lvl hlvl req sw hw inc] at h
    have hout : out = (⟨lvl, hw⟩ : KeyCharacteristics) ::
        (if inc && !sw.isEmpty then [(⟨SecurityLevel.KEYSTORE, sw⟩ : KeyCharacteristics)] else []) := by
      exact (Option.some.injEq _ _ ▸ h).symm
    refine ⟨[(⟨lvl, hw⟩ : KeyCharacteristics)],
      (if inc && !sw.isEmpty then [(⟨SecurityLevel.KEYSTORE, sw⟩ : KeyCharacteristics)] else []),
      by simpa using hout, by simp, ?_, by simp, ?_, ?_, ?_⟩
    · split <;> simp
    · rcases hc : (inc && !sw.isEmpty) with _ | _
      · simp
      · simp only [if_pos hc]
        simp only [Bool.and_eq_true, Bool.not_eq_true'] at hc
        intro kc hkc
        rw [List.mem_singleton.mp hkc]
        exact ⟨rfl, by simpa using hc.2, hc.1⟩
    · intro heq
      exact absurd heq hlvl
    · intro _
      rfl

theorem convert_output_structure_witness :
    ∃ hwPart ksPart : List KeyCharacteristics,
      [(⟨SecurityLevel.TRUSTED_ENVIRONMENT,
          [(⟨KmTag.KM_TAG_ALGORITHM, KmValue.intVal 1⟩ : KmParam)]⟩ : KeyCharacteristics),
        (⟨SecurityLevel.KEYSTORE,
          [(⟨KmTag.KM_TAG_NONCE, KmValue.intVal 3⟩ : KmParam)]⟩ : KeyCharacteristics)] =
        hwPart ++ ksPart ∧
      hwPart.length ≤ 1 ∧ ksPart.length ≤ 1 ∧
      (∀ kc ∈ hwPart, kc.securityLevel = SecurityLevel.TRUSTED_ENVIRONMENT) ∧
      (∀ kc ∈ ksPart, kc.securityLevel = SecurityLevel.KEYSTORE ∧
        kc.authorizations ≠ [] ∧ true = true) ∧
      (SecurityLevel.TRUSTED_ENVIRONMENT = SecurityLevel.SOFTWARE →
        ∀ kc ∈ hwPart, kc.authorizations ≠ []) ∧
      (SecurityLevel.TRUSTED_ENVIRONMENT ≠ SecurityLevel.SOFTWARE →
        hwPart = [(⟨SecurityLevel.TRUSTED_ENVIRONMENT,
          [(⟨KmTag.KM_TAG_ALGORITHM, KmValue.intVal 1⟩ : KmParam)]⟩ : KeyCharacteristics)]) :=
  convert_output_structure SecurityLevel.TRUSTED_ENVIRONMENT []
    [(⟨KmTag.KM_TAG_NONCE, KmValue.intVal 3⟩ : KmParam)]
    [(⟨KmTag.KM_TAG_ALGORITHM, KmValue.intVal 1⟩ : KmParam)] true
    [(⟨SecurityLevel.TRUSTED_ENVIRONMENT,
        [(⟨KmTag.KM_TAG_ALGORITHM, KmValue.intVal 1⟩ : KmParam)]⟩ : KeyCharacteristics),
      (⟨SecurityLevel.KEYSTORE,
        [(⟨KmTag.KM_TAG_NONCE, KmValue.intVal 3⟩ : KmParam)]⟩ : KeyCharacteristics)]
    (by rfl)

/-! ### Key lifecycle operations

The crypto engine (`::keymaster::AndroidKeymaster`) is external: each adapter
method builds a request, receives a response, and post-processes it.  Engine
responses are therefore universally quantified data; the adapter logic itself
is embedded faithfully.  Out-parameters are modelled by threading their prior
contents: on error the C++ methods return before touching them. -/

/-- `KeyCreationResult`: key blob, characteristics collection, certificate
chain (leaf first). -/
structure KeyCreationResult where
  keyBlob : List Nat
  keyCharacteristics : List KeyCharacteristics
  certificateChain : List (List Nat)
deriving DecidableEq, Repr

/-- Engine response for `GenerateKey` (fields read by the adapter). -/
structure GenerateKeyResponse where
  error : KmError
  key_blob : List Nat
  unenforced : List KmParam
  enforced : List KmParam
  certificate_chain : List (List Nat)
deriving DecidableEq, Repr

/-- Engine response for `ImportKey` (fields read by the adapter). -/
structure ImportKeyResponse where
  error : KmError
  key_blob : List Nat
  unenforced : List KmParam
  enforced : List KmParam
  certificate_chain : List (List Nat)
deriving DecidableEq, Repr

/-- Engine response for `ImportWrappedKey` (fields read by the adapter). -/
structure ImportWrappedKeyResponse where
  error : KmError
  key_blob : List Nat
  unenforced : List KmParam
  enforced : List KmParam
  certificate_chain : List (List Nat)
deriving DecidableEq, Repr

/-- Engine response for `UpgradeKey` (fields read by the adapter). -/
structure UpgradeKeyResponse where
  error : KmError
  upgraded_key : List Nat
deriving DecidableEq, Repr

/-- `AndroidKeyMintDevice::generateKey` (lines 267-302) after the engine call:
on engine error, return it and leave the out-parameter exactly as it was; on
success, fill key blob, characteristics (classified against the request's key
description) and certificate chain.  A classifier `CHECK` failure is `none`. -/
def generateKey (securityLevel : SecurityLevel) (keyParams : List KmParam)
    (response : GenerateKeyResponse) (creationResult : KeyCreationResult) :
    Option (KmError × KeyCreationResult) :=
  if response.error ≠ KmError.OK then
    some (response.error, creationResult)
  else
    (convertKeyCharacteristics securityLevel keyParams response.unenforced
      response.enforced true).map
      (fun chars => (KmError.OK,
        ⟨response.key_blob, chars, response.certificate_chain⟩))

/-- `AndroidKeyMintDevice::importKey` (lines 304-334) after the engine call. -/
def importKey (securityLevel : SecurityLevel) (keyParams : List KmParam)
    (response : ImportKeyResponse) (creationResult : KeyCreationResult) :
    Option (KmError × KeyCreationResult) :=
  if response.error ≠ KmError.OK then
    some (response.error, creationResult)
  else
    (convertKeyCharacteristics securityLevel keyParams response.unenforced
      response.enforced true).map
      (fun chars => (KmError.OK,
        ⟨response.key_blob, chars, response.certificate_chain⟩))

/-- `AndroidKeyMintDevice::importWrappedKey` (lines 336-365) after the engine
call; classification runs against the unwrapping (additional) parameters. -/
def importWrappedKey (securityLevel : SecurityLevel) (unwrappingParams : List KmParam)
    (response : ImportWrappedKeyResponse) (creationResult : KeyCreationResult) :
    Option (KmError × KeyCreationResult) :=
  if response.error ≠ KmError.OK then
    some (response.error, creationResult)
  else
    (convertKeyCharacteristics securityLevel unwrappingParams response.unenforced
      response.enforced true).map
      (fun chars => (KmError.OK,
        ⟨response.key_blob, chars, response.certificate_chain⟩))

/-- `AndroidKeyMintDevice::upgradeKey` (lines 367-384) after the engine call:
on error the out-parameter keeps its prior contents. -/
def upgradeKey (response : UpgradeKeyResponse) (keyBlob : List Nat) :
    KmError × List Nat :=
  if response.error ≠ KmError.OK then
    (response.error, keyBlob)
  else
    (KmError.OK, response.upgraded_key)

/-- C7: for each lifecycle call (generateKey, importKey, importWrappedKey,
upgradeKey), an engine error is returned verbatim and none of the output
fields is populated: the out-parameter keeps its prior contents untouched. -/
theorem lifecycle_error_no_output
    (lvl : SecurityLevel) (kp up : List KmParam)
    (gr : GenerateKeyResponse) (ir : ImportKeyResponse)
    (wr : ImportWrappedKeyResponse) (ur : UpgradeKeyResponse)
    (prior : KeyCreationResult) (priorBlob : List Nat) :
    (gr.error ≠ KmError.OK → generateKey lvl kp gr prior = some (gr.error, prior)) ∧
    (ir.error ≠ KmError.OK → importKey lvl kp ir prior = some (ir.error, prior)) ∧
    (wr.error ≠ KmError.OK → importWrappedKey lvl up wr prior = some (wr.error, prior)) ∧
    (ur.error ≠ KmError.OK → upgradeKey ur priorBlob = (ur.error, priorBlob)) := by
  refine ⟨fun h => ?_, fun h => ?_, fun h => ?_, fun h => ?_⟩
  · rw [generateKey, if_pos h]
  · rw [importKey, if_pos h]
  · rw [importWrappedKey, if_pos h]
  · rw [upgradeKey, if_pos h]

theorem lifecycle_error_no_output_witness :
    generateKey SecurityLevel.SOFTWARE []
      (⟨KmError.UNKNOWN_ERROR, [], [], [], []⟩ : GenerateKeyResponse)
      (⟨[9], [], []⟩ : KeyCreationResult) =
      some (KmError.UNKNOWN_ERROR, (⟨[9], [], []⟩ : KeyCreationResult)) ∧
    importKey SecurityLevel.SOFTWARE []
      (⟨KmError.UNKNOWN_ERROR, [], [], [], []⟩ : ImportKeyResponse)
      (⟨[9], [], []⟩ : KeyCreationResult) =
      some (KmError.UNKNOWN_ERROR, (⟨[9], [], []⟩ : KeyCreationResult)) ∧
    importWrappedKey SecurityLevel.SOFTWARE []
      (⟨KmError.UNKNOWN_ERROR, [], [], [], []⟩ : ImportWrappedKeyResponse)
      (⟨[9], [], []⟩ : KeyCreationResult) =
      some (KmError.UNKNOWN_ERROR, (⟨[9], [], []⟩ : KeyCreationResult)) ∧
    upgradeKey (⟨KmError.UNKNOWN_ERROR, []⟩ : UpgradeKeyResponse) [9] =
      (KmError.UNKNOWN_ERROR, [9]) := by
  obtain ⟨h1, h2, h3, h4⟩ := lifecycle_error_no_output SecurityLevel.SOFTWARE [] []
    (⟨KmError.UNKNOWN_ERROR, [], [], [], []⟩ : GenerateKeyResponse)
    (⟨KmError.UNKNOWN_ERROR, [], [], [], []⟩ : ImportKeyResponse)
    (⟨KmError.UNKNOWN_ERROR, [], [], [], []⟩ : ImportWrappedKeyResponse)
    (⟨KmError.UNKNOWN_ERROR, []⟩ : UpgradeKeyResponse)
    (⟨[9], [], []⟩ : KeyCreationResult) [9]
  exact ⟨h1 (by decide), h2 (by decide), h3 (by decide), h4 (by decide)⟩

/-- Engine request for `GetKeyCharacteristics`. -/
structure GetKeyCharacteristicsRequest where
  keyMaterial : List Nat
  additionalParams : List KmParam
deriving DecidableEq, Repr

/-- Engine response for `GetKeyCharacteristics` (fields read by the adapter). -/
structure GetKeyCharacteristicsResponse where
  error : KmError
  unenforced : List KmParam
  enforced : List KmParam
deriving DecidableEq, Repr

/-- `addClientAndAppData` (lines 201-210): clears the parameter set, then adds
`APPLICATION_ID` and `APPLICATION_DATA` entries for the non-empty buffers. -/
def addClientAndAppData (appId appData : List Nat) : List KmParam :=
  (if appId.length ≠ 0 then [(⟨KmTag.KM_TAG_APPLICATION_ID, KmValue.bytesVal appId⟩ : KmParam)] else []) ++
  (if appData.length ≠ 0 then [(⟨KmTag.KM_TAG_APPLICATION_DATA, KmValue.bytesVal appData⟩ : KmParam)] else [])

/-- `AndroidKeyMintDevice::getKeyCharacteristics` (lines 461-481): build the
request with client/app data, call the engine, propagate an engine error, and
otherwise classify the response with an empty requested set and
`include_keystore_enforced = false`.  The outer `Option` models a classifier
`CHECK` failure; the inner `Except` models the returned status. -/
def getKeyCharacteristics (securityLevel : SecurityLevel)
    (engine : GetKeyCharacteristicsRequest → GetKeyCharacteristicsResponse)
    (keyBlob appId appData : List Nat) :
    Option (Except KmError (List KeyCharacteristics)) :=
  let response := engine ⟨keyBlob, addClientAndAppData appId appData⟩
  if response.error ≠ KmError.OK then
    some (Except.error response.error)
  else
    (convertKeyCharacteristics securityLevel [] response.unenforced
      response.enforced false).map Except.ok

theorem convert_include_false_levels
    (lvl : SecurityLevel) (req sw hw : List KmParam) (out : List KeyCharacteristics)
    (h : convertKeyCharacteristics lvl req sw hw false = some out) :
    ∀ kc ∈ out, kc.securityLevel = lvl := by
  by_cases hlvl : lvl = SecurityLevel.SOFTWARE
  · subst hlvl
    obtain ⟨hhw, hwL, ksL, hloop, hout⟩ := convert_software_shape req sw hw false out h
    rw [hout]
    intro kc hkc
    rcases List.mem_append.mp hkc with hm | hm
    · rcases hc : (!hwL.isEmpty) with _ | _ <;> rw [hc] at hm
      · exact absurd hm (by simp)
      · rw [List.mem_singleton.mp hm]
    · exact absurd hm (by simp)
  · rw [convert_nonsoftware_passthrough lvl hlvl req sw hw false] at h
    have hout : out = [(⟨lvl, hw⟩ : KeyCharacteristics)] := by
      simpa using h.symm
    rw [hout]
    intro kc hkc
    rw [List.mem_singleton.mp hkc]

/-- C6: `getKeyCharacteristics` never returns a KEYSTORE-domain entry: it
classifies with `include_keystore_enforced = false`, so every returned entry
carries the device's security level (which for a KeyMint device is SOFTWARE,
TRUSTED_ENVIRONMENT or STRONGBOX, never KEYSTORE). -/
theorem getKeyCharacteristics_no_keystore_entry
    (lvl : SecurityLevel) (hlvl : lvl ≠ SecurityLevel.KEYSTORE)
    (engine : GetKeyCharacteristicsRequest → GetKeyCharacteristicsResponse)
    (keyBlob appId appData : List Nat) (out : List KeyCharacteristics)
    (h : getKeyCharacteristics lvl engine keyBlob appId appData = some (Except.ok out)) :
    ∀ kc ∈ out, kc.securityLevel ≠ SecurityLevel.KEYSTORE := by
  rw [getKeyCharacteristics] at h
  by_cases herr : (engine ⟨keyBlob, addClientAndAppData appId appData⟩).error ≠ KmError.OK
  · rw [if_pos herr] at h
    exact absurd h (by simp)
  · rw [if_neg herr] at h
    rcases hconv : convertKeyCharacteristics lvl []
        (engine ⟨keyBlob, addClientAndAppData appId appData⟩).unenforced
        (engine ⟨keyBlob, addClientAndAppData appId appData⟩).enforced false with _ | chars
    · rw [hconv] at h
      exact absurd h (by simp)
    · rw [hconv] at h
      simp only [Option.map_some', Option.some.injEq] at h
      have hchars : chars = out := by
        simpa using h
      subst hchars
      intro kc hkc
      rw [convert_include_false_levels lvl _ _ _ chars hconv kc hkc]
      exact hlvl

theorem getKeyCharacteristics_no_keystore_entry_witness :
    (⟨SecurityLevel.SOFTWARE,
      [(⟨KmTag.KM_TAG_ALGORITHM, KmValue.intVal 1⟩ : KmParam)]⟩ :
        KeyCharacteristics).securityLevel ≠ SecurityLevel.KEYSTORE :=
  getKeyCharacteristics_no_keystore_entry SecurityLevel.SOFTWARE (by decide)
    (fun _ => (⟨KmError.OK,
      [(⟨KmTag.KM_TAG_ALGORITHM, KmValue.intVal 1⟩ : KmParam)], []⟩ :
        GetKeyCharacteristicsResponse))
    [1] [] [] [(⟨SecurityLevel.SOFTWARE,
      [(⟨KmTag.KM_TAG_ALGORITHM, KmValue.intVal 1⟩ : KmParam)]⟩ : KeyCharacteristics)]
    (by rfl)
    (⟨SecurityLevel.SOFTWARE,
      [(⟨KmTag.KM_TAG_ALGORITHM, KmValue.intVal 1⟩ : KmParam)]⟩ : KeyCharacteristics)
    (List.mem_singleton.mpr rfl)

/-- C9: the classification operation is deterministic in its inputs: two calls
with identical security level, requested set, software- and hardware-enforced
sets and keystore-inclusion flag yield identical output (the embedding is a
pure function, mirroring the C++ function, which reads only its const-ref
arguments and locals and touches no global state). -/
theorem convert_pure_deterministic
    (lvl1 lvl2 : SecurityLevel) (req1 req2 sw1 sw2 hw1 hw2 : List KmParam)
    (inc1 inc2 : Bool)
    (h1 : lvl1 = lvl2) (h2 : req1 = req2) (h3 : sw1 = sw2) (h4 : hw1 = hw2)
    (h5 : inc1 = inc2) :
    convertKeyCharacteristics lvl1 req1 sw1 hw1 inc1 =
      convertKeyCharacteristics lvl2 req2 sw2 hw2 inc2 := by
  rw [h1, h2, h3, h4, h5]

theorem convert_pure_deterministic_witness :
    convertKeyCharacteristics SecurityLevel.SOFTWARE []
        [(⟨KmTag.KM_TAG_ALGORITHM, KmValue.intVal 1⟩ : KmParam)] [] true =
      convertKeyCharacteristics SecurityLevel.SOFTWARE []
        [(⟨KmTag.KM_TAG_ALGORITHM, KmValue.intVal 1⟩ : KmParam)] [] true :=
  convert_pure_deterministic SecurityLevel.SOFTWARE SecurityLevel.SOFTWARE [] []
    [(⟨KmTag.KM_TAG_ALGORITHM, KmValue.intVal 1⟩ : KmParam)]
    [(⟨KmTag.KM_TAG_ALGORITHM, KmValue.intVal 1⟩ : KmParam)] [] [] true true
    rfl rfl rfl rfl rfl

/-- `AndroidKeyMintDevice::addRngEntropy` (lines 253-265): an empty buffer
returns OK without calling the engine; otherwise the data is forwarded and the
engine's status is propagated.  The second component records whether the
engine's `AddRngEntropy` was invoked. -/
def addRngEntropy (engine : List Nat → KmError) (data : List Nat) :
    KmError × Bool :=
  if data.length = 0 then
    (KmError.OK, false)
  else
    (engine data, true)

/-- C10: `addRngEntropy` with an empty buffer returns success immediately and
never invokes the engine; a non-empty buffer is forwarded to the engine, whose
status (possibly an error) is returned. -/
theorem addRngEntropy_empty_skips_engine
    (engine : List Nat → KmError) (data : List Nat) :
    (data = [] → addRngEntropy engine data = (KmError.OK, false)) ∧
    (data ≠ [] → addRngEntropy engine data = (engine data, true)) := by
  constructor
  · intro h
    subst h
    rfl
  · intro h
    rw [addRngEntropy, if_neg (by simpa using h)]

theorem addRngEntropy_empty_skips_engine_witness :
    addRngEntropy (fun _ => KmError.UNKNOWN_ERROR) [] = (KmError.OK, false) ∧
    addRngEntropy (fun _ => KmError.UNKNOWN_ERROR) [7] =
      ((fun _ => KmError.UNKNOWN_ERROR) [7], true) :=
  ⟨(addRngEntropy_empty_skips_engine (fun _ => KmError.UNKNOWN_ERROR) []).1 rfl,
    (addRngEntropy_empty_skips_engine (fun _ => KmError.UNKNOWN_ERROR) [7]).2 (by decide)⟩

/-! ### Operation table -/

/-- Fixed operation-table capacity passed to the engine constructor
(line 214: `constexpr size_t kOperationTableSize = 16`). -/
def kOperationTableSize : Nat := 16

/-- Modelled from the spec: the engine's bounded operation table (the
`::keymaster::AndroidKeymaster` operation table is outside this translation
unit; only its capacity constant is in the source).  State: the list of active
operation handles. -/
structure OperationTable where
  ops : List Nat
deriving DecidableEq, Repr

/-- Modelled from the spec: `begin` allocates an entry in the bounded table;
exceeding capacity fails with a resource-exhaustion error rather than
silently evicting an entry. -/
def beginOperation (t : OperationTable) (handle : Nat) :
    Except KmError OperationTable :=
  if t.ops.length < kOperationTableSize then
    Except.ok ⟨handle :: t.ops⟩
  else
    Except.error KmError.TOO_MANY_OPERATIONS

/-- Modelled from the spec: `abort` removes an operation from the table
immediately, freeing its slot. -/
def abortOperation (t : OperationTable) (handle : Nat) : OperationTable :=
  ⟨t.ops.erase handle⟩

/-- `n` consecutive successful `begin` calls (with distinct handles
`0, 1, ..., n-1`), failing as soon as one fails. -/
def beginN (n : Nat) (t : OperationTable) : Except KmError OperationTable :=
  match n with
  | 0 => Except.ok t
  | m + 1 =>
    match beginN m t with
    | Except.ok t2 => beginOperation t2 m
    | Except.error e => Except.error e

/-- C8: starting from an empty table, 16 consecutive `begin` calls with no
intervening `finish`/`abort` all succeed; the 17th fails with the
resource-exhaustion error `TOO_MANY_OPERATIONS` (no silent eviction); and
after one `abort`, a subsequent `begin` succeeds again. -/
theorem operation_table_capacity :
    beginN kOperationTableSize (⟨[]⟩ : OperationTable) =
      Except.ok (⟨[15, 14, 13, 12, 11, 10, 9, 8, 7, 6, 5, 4, 3, 2, 1, 0]⟩ : OperationTable) ∧
    beginOperation
      (⟨[15, 14, 13, 12, 11, 10, 9, 8, 7, 6, 5, 4, 3, 2, 1, 0]⟩ : OperationTable) 16 =
      Except.error KmError.TOO_MANY_OPERATIONS ∧
    beginOperation (abortOperation
      (⟨[15, 14, 13, 12, 11, 10, 9, 8, 7, 6, 5, 4, 3, 2, 1, 0]⟩ : OperationTable) 7) 16 =
      Except.ok (⟨[16, 15, 14, 13, 12, 11, 10, 9, 8, 6, 5, 4, 3, 2, 1, 0]⟩ : OperationTable) := by
  refine ⟨by rfl, by rfl, by rfl⟩
